import Mathlib

/-!
# Verification of the htown_mania agentic orchestration core

A shallow embedding of the planning orchestrator and its fan-out helpers:

* src/app/core/domain/agent_models.py   (data model)
* src/app/adapters/agents/planning_agent.py  (PlanningAgent.run_workflow and phase handlers)
* src/app/adapters/agents/search_agents.py   (run_search_agents_parallel)
* src/app/adapters/agents/review_agents.py   (run_review_swarm)

Modelling conventions:
* Python floats are modelled as rationals (ℚ); the aggregation arithmetic in the
  source uses only +, / and comparisons on small values.
* Wall-clock timestamps (datetime.now()) carry no information any property
  depends on; Observation drops its timestamp field and the completed_at
  timestamp is modelled as Option Unit, where "some ()" means "set".
* Asynchronous calls to external agents (LLM and HTTP I/O) are modelled by
  passing their outcomes as data: a call that may raise is an
  Except String value, and asyncio.gather(..., return_exceptions=True)
  becomes a list of such values in task-submission order (gather preserves
  input order).
* In-place mutation of the pydantic PlanningState is modelled by explicit
  state passing.  A phase handler that raises is modelled as returning
  Except.error (s, msg) where s is the state as mutated up to the raise and
  msg is str(e).
* Python dicts (str keys) are modelled as association lists; dict.update is
  the right-biased merge keeping the insertion order of surviving keys.
-/

namespace Htown

/-- Phases of the agentic workflow, from agent_models.py lines 13-20.
Note: the enum defines NO member named RESEARCHING, although
planning_agent.py refers to AgentPhase.RESEARCHING (see researchingMember
below). -/
inductive AgentPhase where
  | initializing
  | searching
  | reviewing
  | synthesizing
  | complete
  | failed
deriving DecidableEq, Repr

/-- A single observation in the REACT loop (agent_models.py lines 23-30).
The wall-clock timestamp field is abstracted away; pydantic range validation
of confidence (ge=0, le=1) is not modelled — every confidence written by the
orchestrator is a constant in range or an average of in-range values. -/
structure Observation where
  agent : String
  thought : String
  action : Option String := none
  result : Option String := none
  confidence : ℚ := 1
deriving DecidableEq, Repr

/-- A question to investigate (agent_models.py lines 33-38). -/
structure Question where
  text : String
  priority : Nat
  answered : Bool := false
  answer : Option String := none
deriving DecidableEq, Repr

/-- An event (app/core/domain/models.py).  HttpUrl and datetime are modelled
as String and Int (an opaque tick count); only presence or absence of these
optional fields is ever inspected by the orchestrator logic under study. -/
structure Event where
  id : Option Int := none
  title : String
  description : Option String := none
  url : Option String := none
  location : Option String := none
  start_time : Option Int := none
  end_time : Option Int := none
  categories : List String := []
  source : Option String := none
deriving DecidableEq, Repr

/-- An event enriched by the review swarm (agent_models.py lines 41-50).
The Any-typed metadata values are modelled as String; no aggregation step
inspects a metadata value. -/
structure EnrichedEvent where
  event : Event
  verified : Bool := false
  verification_notes : List String := []
  confidence_score : ℚ
  enriched_description : Option String := none
  venue_verified : Bool := false
  url_working : Bool := false
  additional_metadata : List (String × String) := []
deriving DecidableEq, Repr

/-- The orchestrator state (agent_models.py lines 53-78).  started_at is
dropped (wall clock); completed_at is "some ()" once set.  The state has NO
research_enabled and NO events_researched field: pydantic's default
extra=ignore discards the research_enabled keyword that
agentic_event_service.py passes to the constructor, and attribute access on
either name raises AttributeError. -/
structure PlanningState where
  phase : AgentPhase := .initializing
  scratchpad : List Observation := []
  events_found : List Event := []
  search_sources_completed : List String := []
  events_reviewed : List EnrichedEvent := []
  urls_to_check : List String := []
  questions_to_investigate : List Question := []
  promo_generated : Option String := none
  completed_at : Option Unit := none
  error_message : Option String := none
deriving DecidableEq, Repr

/-- PlanningState.add_observation (agent_models.py lines 80-90). -/
def PlanningState.add_observation (s : PlanningState) (agent thought : String)
    (action : Option String := none) (result : Option String := none)
    (confidence : ℚ := 1) : PlanningState :=
  { s with scratchpad := s.scratchpad ++
      [{ agent := agent, thought := thought, action := action,
         result := result, confidence := confidence }] }

/-- PlanningState.mark_complete (agent_models.py lines 102-105). -/
def PlanningState.mark_complete (s : PlanningState) : PlanningState :=
  { s with phase := .complete, completed_at := some () }

/-- PlanningState.mark_failed (agent_models.py lines 107-111). -/
def PlanningState.mark_failed (s : PlanningState) (error : String) : PlanningState :=
  { s with phase := .failed, completed_at := some (), error_message := some error }

/-- Result of one search agent (agent_models.py lines 114-121). -/
structure SearchAgentResult where
  agent_name : String
  events : List Event
  success : Bool
  error_message : Option String := none
  confidence : ℚ := 1
  execution_time_seconds : ℚ
deriving DecidableEq, Repr

/-- Result of one review agent on one event (agent_models.py lines 124-130). -/
structure ReviewAgentResult where
  agent_id : String
  enriched_event : EnrichedEvent
  success : Bool
  error_message : Option String := none
  checks_performed : List String := []
deriving DecidableEq, Repr

/-! ## The orchestration loop (planning_agent.py, run_workflow, lines 123-176)

The five phase handlers are async methods whose external calls are modelled
by handler functions passed as data.  A handler either returns the updated
state or raises, carrying the state as mutated so far and str(e). -/

/-- The outcome of running one phase handler. -/
abbrev PhaseResult := Except (PlanningState × String) PlanningState

/-- The phase handlers of PlanningAgent, as behaviours.  The research phase
handler has no slot: the dispatch below can never reach it (see
researchingMember). -/
structure Handlers where
  initHandler : PlanningState → PhaseResult
  searchHandler : PlanningState → PhaseResult
  reviewHandler : PlanningState → PhaseResult
  synthesizeHandler : PlanningState → PhaseResult

/-- str(e) for the AttributeError raised by the attribute access
AgentPhase.RESEARCHING.  The exact CPython message varies by version; no
property below depends on the text, only on the raise. -/
def researchingAttrMsg : String :=
  "type object AgentPhase has no attribute RESEARCHING"

/-- The attribute access AgentPhase.RESEARCHING performed by the dispatch at
planning_agent.py line 151.  agent_models.AgentPhase (lines 13-20) defines no
member of that name, so the access raises AttributeError. -/
def researchingMember : Except String AgentPhase :=
  Except.error researchingAttrMsg

/-- One turn of the dispatch chain in run_workflow (planning_agent.py lines
142-158).  "Except.ok none" models the final "else: break".  The conditions
are evaluated in source order; evaluating the fourth condition forces the
attribute lookup AgentPhase.RESEARCHING, which raises, so the SYNTHESIZING
arm and the break are dead code whenever the phase is not one of the first
three. -/
def dispatchPhase (h : Handlers) (state : PlanningState) :
    Except (PlanningState × String) (Option PlanningState) :=
  if state.phase = AgentPhase.initializing then (h.initHandler state).map some
  else if state.phase = AgentPhase.searching then (h.searchHandler state).map some
  else if state.phase = AgentPhase.reviewing then (h.reviewHandler state).map some
  else
    match researchingMember with
    | Except.error msg => Except.error (state, msg)
    | Except.ok researching =>
      if state.phase = researching then Except.error (state, "unreachable")
      else if state.phase = AgentPhase.synthesizing then (h.synthesizeHandler state).map some
      else Except.ok none

/-- max_iterations = 10 (planning_agent.py line 130). -/
def maxIterations : Nat := 10

/-- The while loop of run_workflow (planning_agent.py lines 134-158).
fuel counts the loop turns still allowed (the loop guard
"iteration < max_iterations"), iteration the turns already taken; the loop is
entered with fuel = maxIterations and iteration = 0 and maintains
fuel + iteration = maxIterations.  Returns the state and the final value of
iteration, or the in-flight exception. -/
def workflowLoop (h : Handlers) (state : PlanningState) (iteration fuel : Nat) :
    Except (PlanningState × String) (PlanningState × Nat) :=
  match fuel with
  | 0 => Except.ok (state, iteration)
  | fuel' + 1 =>
    if state.phase = AgentPhase.complete then Except.ok (state, iteration)
    else
      match dispatchPhase h state with
      | Except.error e => Except.error e
      | Except.ok none => Except.ok (state, iteration + 1)
      | Except.ok (some s') => workflowLoop h s' (iteration + 1) fuel'

/-- PlanningAgent.run_workflow (planning_agent.py lines 123-176): the
try/except around the loop plus the iteration-cap epilogue.  The except arm
performs mark_failed(str(e)) first and then appends the failure observation
with confidence 0, exactly as lines 168-174 do; the function is total, which
is the embedded form of "never raises past the orchestrator". -/
def run_workflow (h : Handlers) (initial_state : PlanningState) : PlanningState :=
  match workflowLoop h initial_state 0 maxIterations with
  | Except.ok (state, iteration) =>
    if maxIterations ≤ iteration then
      ((state.add_observation "PlanningAgent"
          "Max iterations reached, completing workflow" none none (7/10)).mark_complete)
    else state
  | Except.error (state, e) =>
    (state.mark_failed e).add_observation "PlanningAgent"
      ("Workflow failed: " ++ e) none none 0

/-- The observation appended by the iteration-cap epilogue
(planning_agent.py lines 160-166). -/
def capObservation : Observation :=
  { agent := "PlanningAgent", thought := "Max iterations reached, completing workflow",
    action := none, result := none, confidence := 7/10 }

/-- The observation appended by the except arm (planning_agent.py
lines 170-174). -/
def failObservation (msg : String) : Observation :=
  { agent := "PlanningAgent", thought := "Workflow failed: " ++ msg,
    action := none, result := none, confidence := 0 }

/-! ## The search phase (planning_agent.py, _search_phase, lines 190-268) -/

/-- Renders a rational with two decimal places, standing in for the
Python format specifier .2f used in observation texts.  CPython rounds the
underlying IEEE-754 double with round-half-even; this renderer rounds the
exact rational half-up.  No property below depends on the rendered digits. -/
def fmtFixed2 (q : ℚ) : String :=
  let m : Int := round (q * 100)
  let a := m.natAbs
  (if m < 0 then "-" else "") ++ toString (a / 100) ++ "." ++
    (if a % 100 < 10 then "0" else "") ++ toString (a % 100)

/-- str(x) for an Optional[str] interpolated into an f-string:
Python renders None as "None". -/
def optStr : Option String → String
  | none => "None"
  | some s => s

/-- The deduplication loop of _search_phase (planning_agent.py lines
225-232), with the seen_titles set threaded as an accumulator: keep an event
iff its lower-cased title has not been seen before. -/
def dedupEventsAux : List Event → List String → List Event
  | [], _ => []
  | e :: rest, seen =>
    if e.title.toLower ∈ seen then dedupEventsAux rest seen
    else e :: dedupEventsAux rest (e.title.toLower :: seen)

/-- Deduplicate a merged event batch by lower-cased title
(planning_agent.py lines 225-234). -/
def dedupEvents (events : List Event) : List Event :=
  dedupEventsAux events []

/-- all_events of _search_phase (planning_agent.py lines 204-207): the
concatenation of the event lists of the successful search results, in result
order. -/
def mergedEvents (results : List SearchAgentResult) : List Event :=
  results.foldl (fun acc r => if r.success then acc ++ r.events else acc) []

/-- PlanningAgent._reason_and_generate_questions (planning_agent.py lines
513-542): one aggregate question per missing-field category.  Python
truthiness: a missing start time or url is None; a missing location is None
or the empty string. -/
def generateQuestions (events : List Event) : List Question :=
  let events_without_dates := events.filter (fun e => e.start_time.isNone)
  let events_without_urls := events.filter (fun e => e.url.isNone)
  let events_without_location :=
    events.filter (fun e => e.location.isNone || (e.location == some ""))
  (if 0 < events_without_dates.length then
    [({ text := "How can we determine dates for " ++ toString events_without_dates.length ++
          " events without start times?", priority := 8 } : Question)] else []) ++
  (if 0 < events_without_urls.length then
    [({ text := "Should we exclude " ++ toString events_without_urls.length ++
          " events without URLs?", priority := 5 } : Question)] else []) ++
  (if 0 < events_without_location.length then
    [({ text := "Can we verify venue details for " ++ toString events_without_location.length ++
          " events?", priority := 7 } : Question)] else [])

/-- PlanningAgent._search_phase (planning_agent.py lines 190-268).  The
parallel fan-out run_search_agents_parallel is an external concurrent call;
its outcome list is passed in as data.  numSearchAgents is
len(self.search_agents), quoted in the opening observation. -/
def search_phase (numSearchAgents : Nat) (results : List SearchAgentResult)
    (state : PlanningState) : PlanningState :=
  let st1 := state.add_observation "PlanningAgent"
    ("Need to gather events. I have " ++ toString numSearchAgents ++ " search agents available.")
    (some "invoke_parallel_search_agents") none 1
  let st2 := results.foldl (fun st r =>
    if r.success then
      let st' := { st with search_sources_completed := st.search_sources_completed ++ [r.agent_name] }
      st'.add_observation ("SearchAgent:" ++ r.agent_name)
        ("Searching " ++ r.agent_name ++ " API") (some "search_events")
        (some ("Found " ++ toString r.events.length ++ " events in " ++
          fmtFixed2 r.execution_time_seconds ++ "s")) r.confidence
    else
      st.add_observation ("SearchAgent:" ++ r.agent_name)
        ("Searching " ++ r.agent_name ++ " API") (some "search_events")
        (some ("Failed: " ++ optStr r.error_message)) 0) st1
  let unique_events := dedupEvents (mergedEvents results)
  let st3 := { st2 with events_found := unique_events }
  let st4 := st3.add_observation "PlanningAgent"
    ("Search phase complete. Found " ++ toString unique_events.length ++
      " unique events from " ++ toString st3.search_sources_completed.length ++ " sources.")
    (some "analyze_search_results")
    (some ("Total: " ++ toString unique_events.length ++ " unique events")) (9/10)
  let st5 := { st4 with questions_to_investigate :=
    st4.questions_to_investigate ++ generateQuestions st4.events_found }
  if 0 < unique_events.length then
    { st5.add_observation "PlanningAgent" "Events found. Need to validate and enrich them."
        (some "transition_to_review") (some "Moving to REVIEWING phase") (95/100)
      with phase := .reviewing }
  else
    (st5.add_observation "PlanningAgent" "No events found. Cannot proceed."
        (some "skip_to_complete") (some "Moving to COMPLETE (no events)") 1).mark_complete

/-! ## The review phase (planning_agent.py, _review_phase, lines 270-340) -/

/-- str(e) for the AttributeError raised by the attribute access
state.research_enabled: PlanningState (agent_models.py lines 53-78) defines
no field of that name, and its pydantic config ignores the extra keyword
passed by agentic_event_service.py line 60.  The exact CPython message
varies by version; no property depends on the text. -/
def researchEnabledAttrMsg : String :=
  "PlanningState object has no attribute research_enabled"

/-- avg_confidence of _review_phase (planning_agent.py line 291):
sum(e.confidence_score for e in enriched_events) / len(enriched_events) if
enriched_events else 0.  Factored out of review_phase for reuse in proofs. -/
def avgConfidence (enriched_events : List EnrichedEvent) : ℚ :=
  if enriched_events.length ≠ 0 then
    ((enriched_events.map (fun e => e.confidence_score)).sum) / (enriched_events.length : ℚ)
  else 0

/-- PlanningAgent._review_phase (planning_agent.py lines 270-340).
research_configured is self.research_enabled (all four research components
injected, line 73); numReviewAgents is len(self.review_agents); the enriched
events produced by the external run_review_swarm call are passed as data.
When the mean confidence exceeds 0.6 and research is configured, the guard
at line 312 evaluates state.research_enabled and raises. -/
def review_phase (research_configured : Bool) (numReviewAgents : Nat)
    (enriched_events : List EnrichedEvent) (state : PlanningState) : PhaseResult :=
  let st1 := state.add_observation "PlanningAgent"
    ("Need to validate " ++ toString state.events_found.length ++ " events. Will use " ++
      toString numReviewAgents ++ " review agents in parallel swarm.")
    (some "invoke_review_swarm") none 1
  let st2 := { st1 with events_reviewed := enriched_events }
  let verified_count := (enriched_events.filter (fun e => e.verified)).length
  let avg_confidence : ℚ := avgConfidence enriched_events
  let st3 := st2.add_observation "PlanningAgent"
    ("Review phase complete. " ++ toString verified_count ++ "/" ++
      toString enriched_events.length ++ " events verified.")
    (some "analyze_review_results")
    (some ("Verified: " ++ toString verified_count ++ ", Avg confidence: " ++
      fmtFixed2 avg_confidence)) avg_confidence
  let st4 := { st3 with questions_to_investigate :=
    st3.questions_to_investigate.map (fun q =>
      if q.answered = false ∧ (7/10 : ℚ) < avg_confidence then
        { q with answered := true,
                 answer := some ("Resolved via review swarm (confidence: " ++
                   fmtFixed2 avg_confidence ++ ")") }
      else q) }
  if (6/10 : ℚ) < avg_confidence then
    if research_configured then
      Except.error (st4, researchEnabledAttrMsg)
    else
      Except.ok { st4.add_observation "PlanningAgent"
          "Data quality is sufficient. Ready to generate promo."
          (some "transition_to_synthesize") (some "Moving to SYNTHESIZING phase") (95/100)
        with phase := .synthesizing }
  else
    Except.ok { st4.add_observation "PlanningAgent"
        "Data quality is low but proceeding anyway."
        (some "transition_to_synthesize") (some "Moving to SYNTHESIZING phase (low confidence)") (7/10)
      with phase := .synthesizing }

/-! ## Search fan-out (search_agents.py, run_search_agents_parallel,
lines 464-492) -/

/-- The synthetic failed result substituted for an agent whose search_events
raised (search_agents.py lines 480-488); i is the position of the agent in
the input list, msg is str(exception). -/
def failedSearchResult (i : Nat) (msg : String) : SearchAgentResult :=
  { agent_name := "Agent_" ++ toString i, events := [], success := false,
    error_message := some msg, confidence := 0, execution_time_seconds := 0 }

/-- The enumerate loop of run_search_agents_parallel (search_agents.py lines
478-490), converting each raised exception into a synthetic failed result and
keeping every returned result unchanged. -/
def processResults : Nat → List (Except String SearchAgentResult) → List SearchAgentResult
  | _, [] => []
  | i, Except.ok r :: rest => r :: processResults (i + 1) rest
  | i, Except.error msg :: rest => failedSearchResult i msg :: processResults (i + 1) rest

/-- run_search_agents_parallel (search_agents.py lines 464-492).  The
asyncio.gather(..., return_exceptions=True) outcome list is passed as data;
gather returns one outcome per agent in input order. -/
def run_search_agents_parallel
    (gathered : List (Except String SearchAgentResult)) : List SearchAgentResult :=
  processResults 0 gathered

/-! ## Review swarm aggregation (review_agents.py, run_review_swarm,
lines 412-493) -/

/-- dict.update for string-keyed dicts modelled as association lists:
existing keys keep their position and take the new value, new keys are
appended in their own order. -/
def dictUpdate (old new : List (String × String)) : List (String × String) :=
  (old.map (fun p => match new.find? (fun q => q.1 == p.1) with
    | some q => q
    | none => p)) ++
  new.filter (fun q => !(old.any (fun p => p.1 == q.1)))

/-- The mutable locals of the aggregation loop in
review_event_with_all_agents (review_agents.py lines 441-448).  The
agent_votes list is also accumulated there but is only interpolated into a
console print (line 475), so it is omitted. -/
structure ReviewAcc where
  all_notes : List String := []
  all_metadata : List (String × String) := []
  total_confidence : ℚ := 0
  verified_count : Nat := 0
  url_working : Bool := false
  venue_verified : Bool := false
  enriched_desc : Option String := none
deriving DecidableEq, Repr

/-- valid_results (review_agents.py line 450): the gathered outcomes that are
ReviewAgentResult instances, i.e. the calls that did not raise. -/
def validResults (results : List (Except String ReviewAgentResult)) : List ReviewAgentResult :=
  results.filterMap (fun r => match r with
    | Except.ok v => some v
    | Except.error _ => none)

/-- One turn of the aggregation loop (review_agents.py lines 452-468):
only results with success=True contribute.  Python truthiness at line 467:
an enriched_description that is None or the empty string does not overwrite
the last one seen. -/
def reviewStep (acc : ReviewAcc) (result : ReviewAgentResult) : ReviewAcc :=
  if result.success then
    let enriched := result.enriched_event
    { acc with
      all_notes := acc.all_notes ++ enriched.verification_notes,
      all_metadata := dictUpdate acc.all_metadata enriched.additional_metadata,
      total_confidence := acc.total_confidence + enriched.confidence_score,
      verified_count := acc.verified_count + (if enriched.verified then 1 else 0),
      url_working := acc.url_working || enriched.url_working,
      venue_verified := acc.venue_verified || enriched.venue_verified,
      enriched_desc := match enriched.enriched_description with
        | some d => if d = "" then acc.enriched_desc else some d
        | none => acc.enriched_desc }
  else acc

/-- The aggregation in review_event_with_all_agents (review_agents.py lines
440-486) applied to one event and the gathered outcomes of all review agents
for it.  Note that both the average (line 471) and the majority threshold
(line 474) divide by len(valid_results), the count of non-raising results,
not by the count of results with success=True. -/
def aggregateReviewResults (event : Event)
    (results : List (Except String ReviewAgentResult)) : EnrichedEvent :=
  let valid := validResults results
  let acc := valid.foldl reviewStep {}
  let avg_confidence : ℚ :=
    if valid.length ≠ 0 then acc.total_confidence / (valid.length : ℚ) else 1/2
  let is_verified : Bool := decide ((valid.length : ℚ) / 2 < (acc.verified_count : ℚ))
  { event := event, verified := is_verified, verification_notes := acc.all_notes,
    confidence_score := avg_confidence, enriched_description := acc.enriched_desc,
    url_working := acc.url_working, venue_verified := acc.venue_verified,
    additional_metadata := acc.all_metadata }

/-- run_review_swarm (review_agents.py lines 412-493): one EnrichedEvent per
input event, in input order; each event is paired with the gathered outcomes
of its review-agent calls.  The semaphore only schedules the per-event tasks
(see SwarmStep below) and does not affect which results each event
aggregates. -/
def run_review_swarm
    (eventResults : List (Event × List (Except String ReviewAgentResult))) :
    List EnrichedEvent :=
  eventResults.map (fun p => aggregateReviewResults p.1 p.2)

/-- The results among the non-raising ones that have success=True; the
spec's "successful agent results". -/
def successfulResults (results : List (Except String ReviewAgentResult)) : List ReviewAgentResult :=
  (validResults results).filter (fun r => r.success)

/-- The number of successful results whose enriched event voted verified. -/
def verifiedVotes (results : List (Except String ReviewAgentResult)) : Nat :=
  ((successfulResults results).filter (fun r => r.enriched_event.verified)).length

/-- The sum of the successful results' confidence scores. -/
def sumSuccessConfidence (results : List (Except String ReviewAgentResult)) : ℚ :=
  ((successfulResults results).map (fun r => r.enriched_event.confidence_score)).sum

/-! ## The review-swarm semaphore (review_agents.py lines 429-434)

run_review_swarm creates asyncio.Semaphore(max_concurrent) and each
per-event task executes "async with semaphore:" around the review of its
event, so a task is reviewing (holding the semaphore) only between a
successful acquire and the matching release.  The cooperative scheduling of
these tasks is modelled as a transition system: one task per event, each
task waiting, then running (= between acquire and release), then done.
An acquire can only be granted while fewer than k tasks are running. -/

/-- The scheduling status of one per-event review task. -/
inductive TaskStatus where
  | waiting
  | running
  | done
deriving DecidableEq, Repr

/-- The number of tasks currently holding the semaphore. -/
def countRunning : List TaskStatus → Nat
  | [] => 0
  | TaskStatus.running :: ts => countRunning ts + 1
  | _ :: ts => countRunning ts

/-- One scheduler step of the review swarm with semaphore capacity k:
either a waiting task acquires the semaphore (possible only while fewer
than k tasks hold it — asyncio.Semaphore blocks otherwise), or a running
task finishes its event and releases. -/
inductive SwarmStep (k : Nat) : List TaskStatus → List TaskStatus → Prop where
  | acquire (ts : List TaskStatus) (i : Nat)
      (hw : ts[i]? = some TaskStatus.waiting) (hk : countRunning ts < k) :
      SwarmStep k ts (ts.set i TaskStatus.running)
  | release (ts : List TaskStatus) (i : Nat)
      (hr : ts[i]? = some TaskStatus.running) :
      SwarmStep k ts (ts.set i TaskStatus.done)

/-- The schedules of run_review_swarm on n events: every interleaving
reachable from the initial configuration where all n per-event tasks wait. -/
def SwarmReachable (k n : Nat) (ts : List TaskStatus) : Prop :=
  Relation.ReflTransGen (SwarmStep k) (List.replicate n TaskStatus.waiting) ts

/-! ## Auxiliary definitions for stating the properties -/

/-- The phase carried by a phase-handler outcome, when it returned. -/
def exceptPhase : PhaseResult → Option AgentPhase
  | Except.ok s => some s.phase
  | Except.error _ => none

/-- The str(e) carried by a phase-handler outcome, when it raised. -/
def exceptErrMsg : PhaseResult → Option String
  | Except.error (_, m) => some m
  | Except.ok _ => none

/-- The phases from which the dispatch chain of run_workflow can proceed
without evaluating the raising AgentPhase.RESEARCHING lookup. -/
def SafePhase (ph : AgentPhase) : Prop :=
  ph = AgentPhase.initializing ∨ ph = AgentPhase.searching ∨ ph = AgentPhase.reviewing

/-- Phase-handler behaviours that never advance the phase to COMPLETE. -/
def NeverCompletes (h : Handlers) : Prop :=
  (∀ st s', h.initHandler st = Except.ok s' → s'.phase ≠ AgentPhase.complete)
  ∧ (∀ st s', h.searchHandler st = Except.ok s' → s'.phase ≠ AgentPhase.complete)
  ∧ (∀ st s', h.reviewHandler st = Except.ok s' → s'.phase ≠ AgentPhase.complete)
  ∧ (∀ st s', h.synthesizeHandler st = Except.ok s' → s'.phase ≠ AgentPhase.complete)

/-- A concrete event for instantiating theorems. -/
def jazzEvent : Event := { title := "Jazz Night" }

/-- A review result that returned with success=True and a verified vote. -/
def verifiedReviewResult : ReviewAgentResult :=
  { agent_id := "relevance_scorer",
    enriched_event := { event := jazzEvent, verified := true, confidence_score := 1 },
    success := true }

/-- A review result that returned normally but with success=False. -/
def unsuccessfulReviewResult1 : ReviewAgentResult :=
  { agent_id := "content_enricher",
    enriched_event := { event := jazzEvent, verified := false, confidence_score := 6/10 },
    success := false, error_message := some "timeout" }

/-- Another review result that returned normally but with success=False. -/
def unsuccessfulReviewResult2 : ReviewAgentResult :=
  { agent_id := "date_verifier",
    enriched_event := { event := jazzEvent, verified := false, confidence_score := 1/2 },
    success := false, error_message := some "timeout" }

/-- A sample successful search result, used to instantiate theorems with
hypotheses at a concrete input. -/
def sampleSearchResult : SearchAgentResult :=
  { agent_name := "Eventbrite", events := [{ title := "Jazz Night" }],
    success := true, execution_time_seconds := 1 }

/-- An enriched event reviewed with high confidence. -/
def highConfEnriched : EnrichedEvent :=
  { event := jazzEvent, verified := true, confidence_score := 9/10 }

/-- An enriched event reviewed with low confidence. -/
def lowConfEnriched : EnrichedEvent :=
  { event := jazzEvent, verified := true, confidence_score := 1/2 }

/-- Handler behaviours whose synthesize handler would store a promo and
complete the workflow — were it ever dispatched. -/
def promoPoisonHandlers : Handlers :=
  { initHandler := fun s => Except.ok s,
    searchHandler := fun s => Except.ok s,
    reviewHandler := fun s => Except.ok s,
    synthesizeHandler := fun s =>
      Except.ok { s with promo_generated := some "GENERATED PROMO",
                         phase := AgentPhase.complete } }

/-- Handler behaviours that always raise. -/
def boomHandlers : Handlers :=
  { initHandler := fun s => Except.error (s, "boom"),
    searchHandler := fun s => Except.error (s, "boom"),
    reviewHandler := fun s => Except.error (s, "boom"),
    synthesizeHandler := fun s => Except.error (s, "boom") }

/-- Handler behaviours that keep the workflow in SEARCHING forever. -/
def stuckSearchHandlers : Handlers :=
  { initHandler := fun s => Except.ok { s with phase := AgentPhase.searching },
    searchHandler := fun s => Except.ok { s with phase := AgentPhase.searching },
    reviewHandler := fun s => Except.ok { s with phase := AgentPhase.searching },
    synthesizeHandler := fun s => Except.ok { s with phase := AgentPhase.searching } }

/-- Handler behaviours that move the phase to FAILED — in particular they
never advance it to COMPLETE. -/
def failStuckHandlers : Handlers :=
  { initHandler := fun s => Except.ok { s with phase := AgentPhase.failed },
    searchHandler := fun s => Except.ok { s with phase := AgentPhase.failed },
    reviewHandler := fun s => Except.ok { s with phase := AgentPhase.failed },
    synthesizeHandler := fun s => Except.ok { s with phase := AgentPhase.failed } }

/-- The concrete handler set whose search phase runs on zero agents and an
empty gather outcome. -/
def emptySearchHandlers : Handlers :=
  { initHandler := fun s => Except.ok s,
    searchHandler := fun s => Except.ok (search_phase 0 [] s),
    reviewHandler := fun s => Except.ok s,
    synthesizeHandler := fun s => Except.ok s }

/-! ## Deduplication properties (C7) -/

theorem dedupEventsAux_sublist (l : List Event) (seen : List String) :
    List.Sublist (dedupEventsAux l seen) l := by
  induction l generalizing seen with
  | nil => simp [dedupEventsAux]
  | cons e rest ih =>
    rw [dedupEventsAux]
    by_cases h : e.title.toLower ∈ seen
    · rw [if_pos h]
      exact (ih seen).cons e
    · rw [if_neg h]
      exact (ih _).cons₂ e

theorem dedupEventsAux_key_not_seen (l : List Event) (seen : List String) :
    ∀ e ∈ dedupEventsAux l seen, e.title.toLower ∉ seen := by
  induction l generalizing seen with
  | nil => simp [dedupEventsAux]
  | cons e rest ih =>
    rw [dedupEventsAux]
    by_cases h : e.title.toLower ∈ seen
    · rw [if_pos h]
      exact ih seen
    · rw [if_neg h]
      intro x hx
      rcases List.mem_cons.mp hx with hx1 | hx1
      · subst hx1; exact h
      · intro hmem
        exact ih (e.title.toLower :: seen) x hx1 (List.mem_cons_of_mem _ hmem)

theorem dedupEventsAux_pairwise (l : List Event) (seen : List String) :
    (dedupEventsAux l seen).Pairwise (fun a b => a.title.toLower ≠ b.title.toLower) := by
  induction l generalizing seen with
  | nil => simp [dedupEventsAux]
  | cons e rest ih =>
    rw [dedupEventsAux]
    by_cases h : e.title.toLower ∈ seen
    · rw [if_pos h]
      exact ih seen
    · rw [if_neg h]
      refine List.Pairwise.cons ?_ (ih _)
      intro b hb hbe
      exact dedupEventsAux_key_not_seen rest _ b hb (by rw [← hbe]; exact List.mem_cons_self _ _)

theorem dedupEventsAux_find? (l : List Event) (seen : List String) (k : String)
    (hk : k ∉ seen) :
    (dedupEventsAux l seen).find? (fun e => e.title.toLower == k)
      = l.find? (fun e => e.title.toLower == k) := by
  induction l generalizing seen with
  | nil => rfl
  | cons e rest ih =>
    rw [dedupEventsAux]
    by_cases h : e.title.toLower ∈ seen
    · rw [if_pos h]
      have hne : (e.title.toLower == k) = false := by
        refine beq_eq_false_iff_ne.mpr ?_
        intro heq
        exact hk (heq ▸ h)
      rw [ih seen hk]
      simp [List.find?, hne]
    · rw [if_neg h]
      by_cases hp : e.title.toLower = k
      · have hpt : (e.title.toLower == k) = true := beq_iff_eq.mpr hp
        simp [List.find?, hpt]
      · have hpf : (e.title.toLower == k) = false := beq_eq_false_iff_ne.mpr hp
        have hknotin : k ∉ e.title.toLower :: seen := by
          intro hmem
          rcases List.mem_cons.mp hmem with hx | hx
          · exact hp hx.symm
          · exact hk hx
        simp only [List.find?, hpf]
        exact ih (e.title.toLower :: seen) hknotin

/-- C7: deduplication by lower-cased title (planning_agent.py lines 225-234)
yields a list (1) whose lower-cased titles are pairwise distinct, (2) that is
a sublist of the input, so kept entries appear in first-seen order with all
their field data preserved, and (3) in which, for every lower-cased key, the
first kept event carrying that key is exactly the first input event carrying
it — first occurrence wins. -/
theorem dedup_by_lowercase_title_spec (l : List Event) :
    (dedupEvents l).Pairwise (fun a b => a.title.toLower ≠ b.title.toLower)
    ∧ List.Sublist (dedupEvents l) l
    ∧ ∀ k : String, (dedupEvents l).find? (fun e => e.title.toLower == k)
        = l.find? (fun e => e.title.toLower == k) := by
  refine ⟨dedupEventsAux_pairwise l [], dedupEventsAux_sublist l [], ?_⟩
  intro k
  exact dedupEventsAux_find? l [] k (List.not_mem_nil k)

/-! ## Search fan-out properties (C9) -/

theorem processResults_length (g : List (Except String SearchAgentResult)) (n : Nat) :
    (processResults n g).length = g.length := by
  induction g generalizing n with
  | nil => rfl
  | cons o rest ih =>
    cases o with
    | ok r => simp [processResults, ih]
    | error msg => simp [processResults, ih]

theorem processResults_getElem? (g : List (Except String SearchAgentResult)) (n i : Nat) :
    (processResults n g)[i]? = (g[i]?).map (fun o => match o with
      | Except.ok r => r
      | Except.error m => failedSearchResult (n + i) m) := by
  induction g generalizing n i with
  | nil => simp [processResults]
  | cons o rest ih =>
    cases o with
    | ok r =>
      cases i with
      | zero => simp [processResults]
      | succ j =>
        have harith : n + 1 + j = n + (j + 1) := by omega
        simp only [processResults, List.getElem?_cons_succ, ih (n + 1) j, harith]
    | error msg =>
      cases i with
      | zero => simp [processResults]
      | succ j =>
        have harith : n + 1 + j = n + (j + 1) := by omega
        simp only [processResults, List.getElem?_cons_succ, ih (n + 1) j, harith]

/-- C9: run_search_agents_parallel (search_agents.py lines 464-492) returns
one result per agent, in input order: an agent whose call returned keeps its
result unchanged, and an agent whose call raised is replaced by a synthetic
failed result with success=false, confidence 0 and the exception text as its
error message. -/
theorem run_search_agents_parallel_spec (gathered : List (Except String SearchAgentResult)) :
    (run_search_agents_parallel gathered).length = gathered.length
    ∧ ∀ i : Nat,
        (∀ r, gathered[i]? = some (Except.ok r) →
          (run_search_agents_parallel gathered)[i]? = some r)
        ∧ ∀ msg, gathered[i]? = some (Except.error msg) →
            (run_search_agents_parallel gathered)[i]? = some (failedSearchResult i msg)
            ∧ (failedSearchResult i msg).success = false
            ∧ (failedSearchResult i msg).confidence = 0
            ∧ (failedSearchResult i msg).error_message = some msg := by
  refine ⟨processResults_length gathered 0, ?_⟩
  intro i
  constructor
  · intro r hr
    rw [run_search_agents_parallel, processResults_getElem?, hr]
    rfl
  · intro msg hmsg
    refine ⟨?_, rfl, rfl, rfl⟩
    rw [run_search_agents_parallel, processResults_getElem?, hmsg]
    simp

theorem run_search_agents_parallel_spec_witness :
    (run_search_agents_parallel [Except.error "boom", Except.ok sampleSearchResult])[0]?
      = some (failedSearchResult 0 "boom")
    ∧ (run_search_agents_parallel [Except.error "boom", Except.ok sampleSearchResult])[1]?
      = some sampleSearchResult := by
  have h := run_search_agents_parallel_spec [Except.error "boom", Except.ok sampleSearchResult]
  exact ⟨((h.2 0).2 "boom" rfl).1, (h.2 1).1 sampleSearchResult rfl⟩

/-! ## Review aggregation properties (C3, C4) -/

theorem foldl_reviewStep_verified_count (rs : List ReviewAgentResult) (acc : ReviewAcc) :
    (rs.foldl reviewStep acc).verified_count
      = acc.verified_count
        + ((rs.filter (fun r => r.success)).filter
            (fun r => r.enriched_event.verified)).length := by
  induction rs generalizing acc with
  | nil => simp
  | cons r rest ih =>
    rw [List.foldl_cons, ih]
    by_cases hs : r.success = true
    · by_cases hv : r.enriched_event.verified = true
      · simp [reviewStep, hs, hv, List.filter_cons]
        omega
      · simp [reviewStep, hs, hv, List.filter_cons]
    · simp [reviewStep, hs, List.filter_cons]

theorem foldl_reviewStep_total_confidence (rs : List ReviewAgentResult) (acc : ReviewAcc) :
    (rs.foldl reviewStep acc).total_confidence
      = acc.total_confidence
        + ((rs.filter (fun r => r.success)).map
            (fun r => r.enriched_event.confidence_score)).sum := by
  induction rs generalizing acc with
  | nil => simp
  | cons r rest ih =>
    rw [List.foldl_cons, ih]
    by_cases hs : r.success = true
    · simp [reviewStep, hs, List.filter_cons]
      ring
    · simp [reviewStep, hs, List.filter_cons]

/-- C3 (amended): the aggregated verified flag of run_review_swarm
(review_agents.py line 474) is a strict majority over ALL non-raising agent
results — the denominator is len(valid_results), counting results with
success=False as well — not over the successful results only.  Ties still
round down to unverified. -/
theorem review_verified_iff_majority_of_valid (event : Event)
    (results : List (Except String ReviewAgentResult)) :
    (aggregateReviewResults event results).verified = true
      ↔ (validResults results).length < 2 * verifiedVotes results := by
  have hvc : ((validResults results).foldl reviewStep {}).verified_count
      = verifiedVotes results := by
    rw [foldl_reviewStep_verified_count]
    simp [verifiedVotes, successfulResults]
  simp only [aggregateReviewResults, decide_eq_true_eq, hvc]
  rw [div_lt_iff₀ (by norm_num : (0:ℚ) < 2)]
  constructor
  · intro hlt
    have : (validResults results).length < verifiedVotes results * 2 := by exact_mod_cast hlt
    omega
  · intro hlt
    have : (validResults results).length < verifiedVotes results * 2 := by omega
    exact_mod_cast this

/-- The pair of unfolding equations used to evaluate the aggregation at
concrete inputs. -/
theorem aggregateReviewResults_verified_eq (event : Event)
    (results : List (Except String ReviewAgentResult)) :
    (aggregateReviewResults event results).verified
      = decide ((((validResults results).length : ℚ)) / 2
          < ((((validResults results).foldl reviewStep {}).verified_count : ℚ))) := rfl

theorem aggregateReviewResults_confidence_eq (event : Event)
    (results : List (Except String ReviewAgentResult)) :
    (aggregateReviewResults event results).confidence_score
      = if (validResults results).length ≠ 0 then
          (((validResults results).foldl reviewStep {}).total_confidence)
            / ((validResults results).length : ℚ)
        else 1/2 := rfl

/-- C3 counterexample: with one successful verified vote and two returned
but unsuccessful results, the claim as stated (v=1 verified out of n=1
successful, 1 > 1/2) predicts verified=true, yet the code divides by the
three valid results and yields verified=false. -/
theorem review_majority_denominator_counterexample :
    verifiedVotes [Except.ok verifiedReviewResult, Except.ok unsuccessfulReviewResult1,
        Except.ok unsuccessfulReviewResult2] = 1
    ∧ (successfulResults [Except.ok verifiedReviewResult, Except.ok unsuccessfulReviewResult1,
        Except.ok unsuccessfulReviewResult2]).length = 1
    ∧ (aggregateReviewResults jazzEvent
        [Except.ok verifiedReviewResult, Except.ok unsuccessfulReviewResult1,
         Except.ok unsuccessfulReviewResult2]).verified = false := by
  refine ⟨rfl, rfl, ?_⟩
  rw [aggregateReviewResults_verified_eq]
  have hvc : ((validResults [Except.ok verifiedReviewResult, Except.ok unsuccessfulReviewResult1,
      Except.ok unsuccessfulReviewResult2]).foldl reviewStep {}).verified_count = 1 := by
    rw [foldl_reviewStep_verified_count]
    rfl
  have hlen : (validResults [Except.ok verifiedReviewResult, Except.ok unsuccessfulReviewResult1,
      Except.ok unsuccessfulReviewResult2]).length = 3 := rfl
  rw [hvc, hlen]
  simp only [decide_eq_false_iff_not]
  push_cast
  norm_num

/-- C4 (amended): the aggregated confidence of run_review_swarm
(review_agents.py line 471) is the sum of the SUCCESSFUL results'
confidences divided by the number of ALL non-raising results, and defaults
to 0.5 only when no result returned at all; when results returned but none
succeeded the confidence is 0, not 0.5. -/
theorem review_confidence_formula (event : Event)
    (results : List (Except String ReviewAgentResult)) :
    (aggregateReviewResults event results).confidence_score =
      if (validResults results).length = 0 then 1/2
      else sumSuccessConfidence results / ((validResults results).length : ℚ) := by
  have htc : ((validResults results).foldl reviewStep {}).total_confidence
      = sumSuccessConfidence results := by
    rw [foldl_reviewStep_total_confidence]
    simp [sumSuccessConfidence, successfulResults]
  unfold aggregateReviewResults
  by_cases h : (validResults results).length = 0
  · simp [h, htc]
  · simp [h, htc]

/-- C4 counterexample: a single returned but unsuccessful result gives zero
successful contributors; the claim as stated predicts the default 0.5, yet
the code computes 0 / 1 = 0. -/
theorem review_confidence_mean_counterexample :
    (successfulResults [Except.ok unsuccessfulReviewResult1]).length = 0
    ∧ (aggregateReviewResults jazzEvent
        [Except.ok unsuccessfulReviewResult1]).confidence_score = 0
    ∧ (0 : ℚ) ≠ 1/2 := by
  refine ⟨rfl, ?_, by norm_num⟩
  rw [aggregateReviewResults_confidence_eq]
  have htc : ((validResults [Except.ok unsuccessfulReviewResult1]).foldl
      reviewStep {}).total_confidence = 0 := by
    rw [foldl_reviewStep_total_confidence]
    simp [validResults, unsuccessfulReviewResult1, List.filter_cons]
  have hlen : (validResults [Except.ok unsuccessfulReviewResult1]).length = 1 := rfl
  rw [htc, hlen]
  norm_num

/-! ## Review-phase transition (C5) -/

theorem avgConfidence_single (e : EnrichedEvent) :
    avgConfidence [e] = e.confidence_score := by
  simp [avgConfidence]

theorem review_phase_errs_of_high_conf (n : Nat) (es : List EnrichedEvent)
    (st : PlanningState) (h6 : (6/10 : ℚ) < avgConfidence es) :
    exceptErrMsg (review_phase true n es st) = some researchEnabledAttrMsg := by
  simp only [review_phase]
  rw [if_pos h6]
  rfl

theorem review_phase_synthesizes_of_low_conf (cfg : Bool) (n : Nat)
    (es : List EnrichedEvent) (st : PlanningState)
    (h6 : ¬ ((6/10 : ℚ) < avgConfidence es)) :
    exceptPhase (review_phase cfg n es st) = some AgentPhase.synthesizing := by
  simp only [review_phase]
  rw [if_neg h6]
  rfl

/-- C5: at the end of the REVIEWING phase with one enriched event and a
research sub-pipeline configured and enabled, the code never transitions to
a RESEARCHING phase.  With mean confidence 0.9 (> 0.6) the handler raises
AttributeError — PlanningState has no research_enabled field and
AgentPhase no RESEARCHING member — failing the workflow; with mean
confidence 0.5 (≤ 0.6) it transitions to SYNTHESIZING even though research
is configured. -/
theorem review_phase_research_branch_raises :
    exceptErrMsg (review_phase true 4 [highConfEnriched]
        { phase := AgentPhase.reviewing }) = some researchEnabledAttrMsg
    ∧ exceptPhase (review_phase true 4 [lowConfEnriched]
        { phase := AgentPhase.reviewing }) = some AgentPhase.synthesizing := by
  constructor
  · refine review_phase_errs_of_high_conf 4 _ _ ?_
    rw [avgConfidence_single]
    norm_num [highConfEnriched]
  · refine review_phase_synthesizes_of_low_conf true 4 _ _ ?_
    rw [avgConfidence_single]
    norm_num [lowConfEnriched]

/-! ## Orchestration loop properties (C1, C2, C6, C8) -/

theorem workflowLoop_zero (h : Handlers) (s : PlanningState) (it : Nat) :
    workflowLoop h s it 0 = Except.ok (s, it) := rfl

theorem workflowLoop_succ (h : Handlers) (s : PlanningState) (it fuel : Nat) :
    workflowLoop h s it (fuel + 1)
      = if s.phase = AgentPhase.complete then Except.ok (s, it)
        else match dispatchPhase h s with
          | Except.error e => Except.error e
          | Except.ok none => Except.ok (s, it + 1)
          | Except.ok (some s') => workflowLoop h s' (it + 1) fuel := rfl

theorem run_workflow_of_loop_error (h : Handlers) (s0 s : PlanningState) (msg : String)
    (hl : workflowLoop h s0 0 maxIterations = Except.error (s, msg)) :
    run_workflow h s0 = (s.mark_failed msg).add_observation "PlanningAgent"
      ("Workflow failed: " ++ msg) none none 0 := by
  rw [run_workflow, hl]

theorem run_workflow_of_loop_ok_cap (h : Handlers) (s0 s : PlanningState)
    (hl : workflowLoop h s0 0 maxIterations = Except.ok (s, maxIterations)) :
    run_workflow h s0 = (s.add_observation "PlanningAgent"
      "Max iterations reached, completing workflow" none none (7/10)).mark_complete := by
  rw [run_workflow, hl]
  rfl

theorem loop_error_of_dispatch_error (h : Handlers) (s0 : PlanningState)
    (p : PlanningState × String) (hphase : s0.phase ≠ AgentPhase.complete)
    (hd : dispatchPhase h s0 = Except.error p) :
    workflowLoop h s0 0 maxIterations = Except.error p := by
  rw [maxIterations]
  show workflowLoop h s0 0 (9 + 1) = Except.error p
  rw [workflowLoop_succ, if_neg hphase, hd]

/-- C1: for any behaviour of the synthesize handler — here one that would
store a promo and complete — a state in the SYNTHESIZING phase makes
run_workflow return a FAILED state with no promo stored: the dispatch chain
evaluates AgentPhase.RESEARCHING (planning_agent.py line 151) before the
SYNTHESIZING arm, and the enum has no such member, so the promo agent is
never invoked. -/
theorem synthesizing_phase_dispatch_fails :
    (run_workflow promoPoisonHandlers { phase := AgentPhase.synthesizing }).phase
      = AgentPhase.failed
    ∧ (run_workflow promoPoisonHandlers
        { phase := AgentPhase.synthesizing }).promo_generated = none
    ∧ (run_workflow promoPoisonHandlers
        { phase := AgentPhase.synthesizing }).error_message = some researchingAttrMsg := by
  refine ⟨rfl, rfl, rfl⟩

theorem dispatch_error_total (h : Handlers) (s0 : PlanningState)
    (hall : ∀ st, (∃ e, h.initHandler st = Except.error e)
         ∧ (∃ e, h.searchHandler st = Except.error e)
         ∧ (∃ e, h.reviewHandler st = Except.error e))
    (hphase : s0.phase ≠ AgentPhase.complete) :
    ∃ p, dispatchPhase h s0 = Except.error p := by
  rcases hall s0 with ⟨⟨e1, he1⟩, ⟨e2, he2⟩, ⟨e3, he3⟩⟩
  cases hp : s0.phase with
  | initializing => exact ⟨e1, by simp [dispatchPhase, hp, he1, Except.map]⟩
  | searching => exact ⟨e2, by simp [dispatchPhase, hp, he2, Except.map]⟩
  | reviewing => exact ⟨e3, by simp [dispatchPhase, hp, he3, Except.map]⟩
  | synthesizing => exact ⟨(s0, researchingAttrMsg), by simp [dispatchPhase, hp, researchingMember, Except.map]⟩
  | complete => exact absurd hp hphase
  | failed => exact ⟨(s0, researchingAttrMsg), by simp [dispatchPhase, hp, researchingMember, Except.map]⟩

/-- C2: (1) whenever the orchestration loop raises — from a phase handler or
from the dispatch itself — run_workflow still returns: the returned state is
in phase FAILED, carries the captured message, and its scratchpad is the
scratchpad at the fault extended by the confidence-0 failure observation;
(2) in particular, handlers that always raise yield a returned FAILED state
from every non-terminal initial state.  run_workflow is a total function of
the handler behaviours, which is the embedded form of "never propagates an
exception". -/
theorem run_workflow_catches_phase_faults :
    (∀ (h : Handlers) (s0 s : PlanningState) (msg : String),
        workflowLoop h s0 0 maxIterations = Except.error (s, msg) →
        (run_workflow h s0).phase = AgentPhase.failed
        ∧ (run_workflow h s0).error_message = some msg
        ∧ (run_workflow h s0).scratchpad = s.scratchpad ++ [failObservation msg]
        ∧ (failObservation msg).confidence = 0)
    ∧ (∀ (h : Handlers) (s0 : PlanningState),
        (∀ st, (∃ e, h.initHandler st = Except.error e)
             ∧ (∃ e, h.searchHandler st = Except.error e)
             ∧ (∃ e, h.reviewHandler st = Except.error e)) →
        s0.phase ≠ AgentPhase.complete →
        (run_workflow h s0).phase = AgentPhase.failed
        ∧ (run_workflow h s0).error_message.isSome = true
        ∧ (run_workflow h s0).scratchpad.getLast?.map Observation.confidence = some 0) := by
  constructor
  · intro h s0 s msg hl
    rw [run_workflow_of_loop_error h s0 s msg hl]
    exact ⟨rfl, rfl, rfl, rfl⟩
  · intro h s0 hall hphase
    obtain ⟨⟨s, msg⟩, hd⟩ := dispatch_error_total h s0 hall hphase
    have hl := loop_error_of_dispatch_error h s0 (s, msg) hphase hd
    rw [run_workflow_of_loop_error h s0 s msg hl]
    refine ⟨rfl, rfl, ?_⟩
    have hsp : (((s.mark_failed msg).add_observation "PlanningAgent"
        ("Workflow failed: " ++ msg) none none 0).scratchpad)
        = s.scratchpad ++ [failObservation msg] := rfl
    rw [hsp, List.getLast?_concat]
    rfl

theorem run_workflow_catches_phase_faults_witness :
    (run_workflow boomHandlers { phase := AgentPhase.searching }).phase
      = AgentPhase.failed := by
  have h := run_workflow_catches_phase_faults.2 boomHandlers
    { phase := AgentPhase.searching }
    (fun st => ⟨⟨(st, "boom"), rfl⟩, ⟨(st, "boom"), rfl⟩, ⟨(st, "boom"), rfl⟩⟩)
    (by decide)
  exact h.1

theorem SafePhase.ne_complete {ph : AgentPhase} (h : SafePhase ph) :
    ph ≠ AgentPhase.complete := by
  rcases h with h | h | h <;> subst h <;> decide

theorem dispatch_ok_of_safe (h : Handlers)
    (hinit : ∀ st, ∃ s', h.initHandler st = Except.ok s' ∧ SafePhase s'.phase)
    (hsearch : ∀ st, ∃ s', h.searchHandler st = Except.ok s' ∧ SafePhase s'.phase)
    (hreview : ∀ st, ∃ s', h.reviewHandler st = Except.ok s' ∧ SafePhase s'.phase)
    (st : PlanningState) (hs : SafePhase st.phase) :
    ∃ s', dispatchPhase h st = Except.ok (some s') ∧ SafePhase s'.phase := by
  rcases hs with hp | hp | hp
  · obtain ⟨s', he, hsafe⟩ := hinit st
    exact ⟨s', by simp [dispatchPhase, hp, he, Except.map], hsafe⟩
  · obtain ⟨s', he, hsafe⟩ := hsearch st
    exact ⟨s', by simp [dispatchPhase, hp, he, Except.map], hsafe⟩
  · obtain ⟨s', he, hsafe⟩ := hreview st
    exact ⟨s', by simp [dispatchPhase, hp, he, Except.map], hsafe⟩

theorem loop_safe (h : Handlers)
    (hdisp : ∀ st, SafePhase st.phase →
      ∃ s', dispatchPhase h st = Except.ok (some s') ∧ SafePhase s'.phase) :
    ∀ (fuel it : Nat) (s0 : PlanningState), SafePhase s0.phase →
      ∃ s, workflowLoop h s0 it fuel = Except.ok (s, it + fuel) ∧ SafePhase s.phase := by
  intro fuel
  induction fuel with
  | zero => exact fun it s0 hs => ⟨s0, by simp [workflowLoop_zero], hs⟩
  | succ f ih =>
    intro it s0 hs
    obtain ⟨s', hd, hs'⟩ := hdisp s0 hs
    obtain ⟨s, hl, hsafe⟩ := ih (it + 1) s' hs'
    refine ⟨s, ?_, hsafe⟩
    rw [workflowLoop_succ, if_neg (SafePhase.ne_complete hs), hd]
    show workflowLoop h s' (it + 1) f = Except.ok (s, it + (f + 1))
    rw [hl]
    have harith : it + 1 + f = it + (f + 1) := by omega
    rw [harith]

/-- C6 counterexample: the handler family that moves every phase to FAILED
never advances the phase to COMPLETE, yet run_workflow from SEARCHING
returns a FAILED state (after 2 loop turns the dispatch evaluates the
missing AgentPhase.RESEARCHING member and raises), not a COMPLETE state
after 10 turns. -/
theorem iteration_cap_counterexample :
    NeverCompletes failStuckHandlers
    ∧ (run_workflow failStuckHandlers { phase := AgentPhase.searching }).phase
        = AgentPhase.failed := by
  constructor
  · refine ⟨?_, ?_, ?_, ?_⟩ <;>
    · intro st s' he
      injection he with h2
      subst h2
      simp
  · rfl

/-- C6 (amended): for every handler family that never raises and keeps the
phase among INITIALIZING, SEARCHING and REVIEWING — in particular one stuck
at SEARCHING — and never sets it to COMPLETE, run_workflow performs exactly
max_iterations = 10 loop turns, appends the iteration-cap observation, and
returns a COMPLETE state.  Handlers that leave those phases abort earlier
through the missing-RESEARCHING dispatch fault instead. -/
theorem iteration_cap_reaches_complete (h : Handlers) (s0 : PlanningState)
    (h0 : SafePhase s0.phase)
    (hinit : ∀ st, ∃ s', h.initHandler st = Except.ok s' ∧ SafePhase s'.phase)
    (hsearch : ∀ st, ∃ s', h.searchHandler st = Except.ok s' ∧ SafePhase s'.phase)
    (hreview : ∀ st, ∃ s', h.reviewHandler st = Except.ok s' ∧ SafePhase s'.phase) :
    ∃ s, workflowLoop h s0 0 maxIterations = Except.ok (s, maxIterations)
      ∧ run_workflow h s0
          = (s.add_observation "PlanningAgent"
              "Max iterations reached, completing workflow" none none (7/10)).mark_complete
      ∧ (run_workflow h s0).phase = AgentPhase.complete
      ∧ (run_workflow h s0).scratchpad.getLast? = some capObservation := by
  obtain ⟨s, hl, _⟩ :=
    loop_safe h (dispatch_ok_of_safe h hinit hsearch hreview) maxIterations 0 s0 h0
  rw [Nat.zero_add] at hl
  have hcap := run_workflow_of_loop_ok_cap h s0 s hl
  refine ⟨s, hl, hcap, ?_, ?_⟩
  · rw [hcap]; rfl
  · rw [hcap]
    have hsp : (((s.add_observation "PlanningAgent"
        "Max iterations reached, completing workflow" none none (7/10)).mark_complete).scratchpad)
        = s.scratchpad ++ [capObservation] := rfl
    rw [hsp, List.getLast?_concat]

theorem iteration_cap_reaches_complete_witness :
    (run_workflow stuckSearchHandlers { phase := AgentPhase.searching }).phase
      = AgentPhase.complete := by
  obtain ⟨s, hl, hcap, hphase, hlast⟩ :=
    iteration_cap_reaches_complete stuckSearchHandlers { phase := AgentPhase.searching }
      (Or.inr (Or.inl rfl))
      (fun st => ⟨{ st with phase := AgentPhase.searching }, rfl, Or.inr (Or.inl rfl)⟩)
      (fun st => ⟨{ st with phase := AgentPhase.searching }, rfl, Or.inr (Or.inl rfl)⟩)
      (fun st => ⟨{ st with phase := AgentPhase.searching }, rfl, Or.inr (Or.inl rfl)⟩)
  exact hphase

theorem search_phase_complete_of_empty (n : Nat) (results : List SearchAgentResult)
    (st : PlanningState) (hempty : dedupEvents (mergedEvents results) = []) :
    (search_phase n results st).phase = AgentPhase.complete
    ∧ (search_phase n results st).completed_at = some () := by
  constructor <;> simp [search_phase, hempty, PlanningState.mark_complete]

/-- C8: when the merged, deduplicated event list of the SEARCHING phase is
empty, the phase handler returns a COMPLETE state with the completion
timestamp set, and run_workflow ends there — the result does not depend on
the review handler, which is never dispatched, so the REVIEWING phase is
never entered. -/
theorem search_phase_empty_shortcircuit (n : Nat) (results : List SearchAgentResult)
    (s0 : PlanningState) (h : Handlers)
    (hempty : dedupEvents (mergedEvents results) = [])
    (hphase : s0.phase = AgentPhase.searching)
    (hsearch : h.searchHandler = fun s => Except.ok (search_phase n results s)) :
    (search_phase n results s0).phase = AgentPhase.complete
    ∧ (search_phase n results s0).completed_at = some ()
    ∧ run_workflow h s0 = search_phase n results s0 := by
  obtain ⟨hph, hts⟩ := search_phase_complete_of_empty n results s0 hempty
  refine ⟨hph, hts, ?_⟩
  have hd : dispatchPhase h s0 = Except.ok (some (search_phase n results s0)) := by
    simp [dispatchPhase, hphase, hsearch, Except.map]
  have hl : workflowLoop h s0 0 maxIterations
      = Except.ok (search_phase n results s0, 1) := by
    rw [maxIterations]
    show workflowLoop h s0 0 (9 + 1) = _
    rw [workflowLoop_succ, if_neg (by simp [hphase]), hd]
    show workflowLoop h (search_phase n results s0) (0 + 1) (8 + 1) = _
    rw [workflowLoop_succ, if_pos hph]
  rw [run_workflow, hl]
  rfl

theorem search_phase_empty_shortcircuit_witness :
    (search_phase 0 [] ({ phase := AgentPhase.searching } : PlanningState)).phase
      = AgentPhase.complete := by
  exact (search_phase_empty_shortcircuit 0 [] { phase := AgentPhase.searching }
    emptySearchHandlers rfl rfl rfl).1

/-! ## Semaphore bound (C10) -/

theorem countRunning_cons (t : TaskStatus) (ts : List TaskStatus) :
    countRunning (t :: ts)
      = (if t = TaskStatus.running then 1 else 0) + countRunning ts := by
  cases t <;> simp [countRunning, Nat.add_comm]

theorem countRunning_replicate_waiting (n : Nat) :
    countRunning (List.replicate n TaskStatus.waiting) = 0 := by
  induction n with
  | zero => rfl
  | succ m ih => rw [List.replicate_succ, countRunning_cons]; simp [ih]

theorem countRunning_set_running (ts : List TaskStatus) (i : Nat)
    (h : ts[i]? = some TaskStatus.waiting) :
    countRunning (ts.set i TaskStatus.running) = countRunning ts + 1 := by
  induction ts generalizing i with
  | nil => simp at h
  | cons t rest ih =>
    cases i with
    | zero =>
      simp at h
      subst h
      simp [List.set, countRunning_cons, Nat.add_comm]
    | succ j =>
      simp at h
      rw [List.set, countRunning_cons, countRunning_cons, ih j h]
      omega

theorem countRunning_set_done (ts : List TaskStatus) (i : Nat)
    (h : ts[i]? = some TaskStatus.running) :
    countRunning (ts.set i TaskStatus.done) + 1 = countRunning ts := by
  induction ts generalizing i with
  | nil => simp at h
  | cons t rest ih =>
    cases i with
    | zero =>
      simp at h
      subst h
      simp [List.set, countRunning_cons, Nat.add_comm]
    | succ j =>
      simp at h
      rw [List.set, countRunning_cons, countRunning_cons]
      have := ih j h
      omega

/-- C10: in every schedule of the review swarm with semaphore capacity k, at
most k per-event review tasks hold the semaphore — are under review —
simultaneously: the count of running tasks in any reachable configuration is
bounded by k. -/
theorem review_swarm_semaphore_bound (k n : Nat) (ts : List TaskStatus)
    (h : SwarmReachable k n ts) : countRunning ts ≤ k := by
  replace h : Relation.ReflTransGen (SwarmStep k)
      (List.replicate n TaskStatus.waiting) ts := h
  induction h with
  | refl => rw [countRunning_replicate_waiting]; exact Nat.zero_le k
  | tail hsteps hstep ih =>
    cases hstep with
    | acquire i hw hk =>
      rw [countRunning_set_running _ i hw]
      omega
    | release i hr =>
      have hrel := countRunning_set_done _ i hr
      omega

theorem review_swarm_semaphore_bound_witness :
    countRunning [TaskStatus.running, TaskStatus.waiting] ≤ 1 := by
  refine review_swarm_semaphore_bound 1 2 [TaskStatus.running, TaskStatus.waiting] ?_
  show Relation.ReflTransGen (SwarmStep 1) (List.replicate 2 TaskStatus.waiting) _
  refine Relation.ReflTransGen.tail Relation.ReflTransGen.refl ?_
  exact SwarmStep.acquire (List.replicate 2 TaskStatus.waiting) 0 rfl (by decide)

end Htown
